import Mathlib

/-!
Verification of the MEDIC streaming pipeline (`src/lib/api.tsx`): the
Response Source Selector (`sendMessage`), the Local Simulator
(`mockStreamResponse`), the Token Streamer (the word-by-word generator) and
the pacing policy (`getStreamDelay`).

Strings are modelled as `List Char`; JavaScript's `split(" ")` is
`List.splitOn ' '`; `Math.random()` draws are explicit rational parameters;
the asynchronous generators are modelled as the finite list of events they
yield (sleeps and chunks, in order).
-/

set_option maxRecDepth 8000

namespace Medic

/-- A retrieval source record (`Source` in `src/lib/types`). The relevance
score is a rational in place of a JS number; the mock data only uses scores
with two decimal digits, which are exact. -/
structure Source where
  id : String
  title : String
  snippet : String
  url : String
  score : ℚ
  type : String
deriving DecidableEq

/-- One streamed chunk: the object literals yielded by `mockStreamResponse`
and by the `stream()` generator inside `sendMessage` — a text fragment, a
completion flag, and an optional source list. -/
structure Chunk where
  content : List Char
  done : Bool
  sources : Option (List Source)
deriving DecidableEq

/-- One entry of `MOCK_RESPONSES`: canned content plus its sources. -/
structure ResponseData where
  content : String
  sources : List Source
deriving DecidableEq

def headacheContent : String :=
  "## Understanding Your Headache\n\nBased on your description, here\x27s what you should know:\n\n### Possible Causes\n- **Tension headache**: Most common type, often related to stress or muscle tension\n- **Migraine**: May include nausea, light sensitivity, or visual disturbances\n- **Dehydration**: A frequently overlooked cause\n\n### Recommended Actions\n1. **Rest** in a quiet, dark room\n2. **Hydrate** - drink water or electrolyte beverages\n3. **Over-the-counter pain relief** (if appropriate for you)\n4. **Apply cold or warm compress** to forehead or neck\n\n### ⚠️ Red Flags - Seek Emergency Care If:\n- Sudden, severe \"thunderclap\" headache\n- Headache with fever, stiff neck, confusion\n- Headache after head injury\n- Vision changes or weakness on one side\n\n> **Medical Disclaimer**: This information is for educational purposes only. Please consult a healthcare professional for personalized medical advice."

def defaultContent : String :=
  "Thank you for your question. I\x27m MEDIC, your AI medical assistant.\n\n### My Analysis\nI\x27ll help you understand your health concern with evidence-based information.\n\n### Important Reminders\n- This is general health information, not a diagnosis\n- Always verify with a qualified healthcare provider\n- In emergencies, call your local emergency number immediately\n\n### What I Can Help With\n- Explaining medical conditions and symptoms\n- Providing general health education\n- Suggesting when to seek professional care\n- Offering lifestyle and wellness guidance\n\n> **Disclaimer**: I am an AI assistant and cannot provide medical diagnoses or treatment recommendations. Always consult qualified healthcare professionals for medical decisions."

def headacheSources : List Source :=
  [⟨"src-1", "Headache Classification - ICHD-3",
    "International Classification of Headache Disorders, 3rd edition guidelines...",
    "https://ichd-3.org", 94/100, "guideline"⟩,
   ⟨"src-2", "Mayo Clinic - Tension Headaches",
    "Tension headaches are the most common type of headache...",
    "https://mayoclinic.org/headaches", 89/100, "reference"⟩]

def defaultSources : List Source :=
  [⟨"src-default", "WHO Health Guidelines",
    "Evidence-based health information from the World Health Organization...",
    "https://who.int", 85/100, "reference"⟩]

/-- `MOCK_RESPONSES.headache`. -/
def mockHeadache : ResponseData := ⟨headacheContent, headacheSources⟩

/-- `MOCK_RESPONSES.default`. -/
def mockDefault : ResponseData := ⟨defaultContent, defaultSources⟩

/-- The character class removed by JavaScript `String.prototype.trim`:
ECMAScript WhiteSpace and LineTerminator code points. -/
def jsWhitespace (c : Char) : Bool :=
  c == ' ' || c == '\t' || c == '\n' || c == '\r' ||
  c == '\x0b' || c == '\x0c' || c == '\u00A0' || c == '\uFEFF' ||
  c == '\u1680' || (decide ('\u2000' ≤ c) && decide (c ≤ '\u200A')) ||
  c == '\u2028' || c == '\u2029' || c == '\u202F' || c == '\u205F' ||
  c == '\u3000'

/-- JavaScript `s.trim()` on a `List Char`. -/
def jsTrim (s : List Char) : List Char :=
  ((s.dropWhile jsWhitespace).reverse.dropWhile jsWhitespace).reverse

/-- The word-emission loop shared by `mockStreamResponse` (lines 106–115) and
`stream()` in `sendMessage` (lines 204–209): each word except the last is
yielded with a single trailing space, with `done = false` and no sources. -/
def wordChunks : List (List Char) → List Chunk
  | [] => []
  | [w] => [⟨w, false, none⟩]
  | w :: ws => ⟨w ++ [' '], false, none⟩ :: wordChunks ws

/-- The keyword test of `mockStreamResponse` (lines 96–100):
`query.toLowerCase()` contains `"headache"` or `"head pain"` selects the
headache entry, anything else the default entry. -/
def mockSelect (query : List Char) : ResponseData :=
  if "headache".toList <:+: query.map Char.toLower ∨
      "head pain".toList <:+: query.map Char.toLower
  then mockHeadache
  else mockDefault

/-- The chunk sequence yielded by `mockStreamResponse` (lines 87–123):
word-by-word chunks for the selected canned content, then one terminal chunk
with empty text, `done = true` and the canned sources. -/
def mockStreamResponse (query : List Char) : List Chunk :=
  wordChunks ((mockSelect query).content.toList.splitOn ' ') ++
    [⟨[], true, some (mockSelect query).sources⟩]

/-- The chunk sequence yielded by the `stream()` generator inside
`sendMessage` (lines 196–213): if `!answer || answer.trim().length === 0`
only the terminal chunk is yielded; otherwise the answer is split on single
spaces and streamed word by word before the terminal chunk. -/
def streamChunks (answer : List Char) (sources : List Source) : List Chunk :=
  if answer.isEmpty || (jsTrim answer).length == 0 then
    [⟨[], true, some sources⟩]
  else
    wordChunks (answer.splitOn ' ') ++ [⟨[], true, some sources⟩]

/-- `getStreamDelay` (lines 128–142). `rand` is the value of the single
`Math.random()` call made on the branch that is taken. -/
def getStreamDelay (word : List Char) (rand : ℚ) : ℚ :=
  if word.getLast? == some '.' || word.getLast? == some '!' || word.getLast? == some '?' then
    80 + rand * 40
  else if word.getLast? == some ',' || word.getLast? == some ':' then
    50 + rand * 30
  else if word.head? == some '#' then
    60
  else
    15 + rand * 25

/-- One event of a streaming generator run: a `sleep(ms)` suspension or a
yielded chunk. -/
inductive StreamEvent where
  | sleep (ms : ℚ) : StreamEvent
  | chunk (c : Chunk) : StreamEvent
deriving DecidableEq

/-- The word-emission loop with its pacing sleeps made explicit: the `i`-th
word's delay consumes the `i`-th draw of the random stream `rand`. -/
def wordEvents (rand : ℕ → ℚ) : ℕ → List (List Char) → List StreamEvent
  | i, [w] => [.sleep (getStreamDelay w (rand i)), .chunk ⟨w, false, none⟩]
  | i, w :: ws =>
      .sleep (getStreamDelay w (rand i)) :: .chunk ⟨w ++ [' '], false, none⟩ ::
        wordEvents rand (i + 1) ws
  | _, [] => []

/-- The full event trace of `mockStreamResponse`: the initial `sleep(300)`,
the paced word chunks, and the terminal chunk. -/
def mockStreamResponseEvents (query : List Char) (rand : ℕ → ℚ) : List StreamEvent :=
  .sleep 300 ::
    wordEvents rand 0 ((mockSelect query).content.toList.splitOn ' ') ++
      [.chunk ⟨[], true, some (mockSelect query).sources⟩]

/-- The full event trace of the `stream()` generator inside `sendMessage`. -/
def streamEvents (answer : List Char) (sources : List Source) (rand : ℕ → ℚ) :
    List StreamEvent :=
  if answer.isEmpty || (jsTrim answer).length == 0 then
    [.chunk ⟨[], true, some sources⟩]
  else
    wordEvents rand 0 (answer.splitOn ' ') ++ [.chunk ⟨[], true, some sources⟩]

/-- The chunks of an event trace, in order, delays erased. -/
def eventChunks (evs : List StreamEvent) : List Chunk :=
  evs.filterMap fun e =>
    match e with
    | .sleep _ => none
    | .chunk c => some c

/-- The parsed JSON body of a backend response, restricted to the fields the
selector consults (plus `text`, which the spec mentions): each is either
absent (`undefined`) or a value. -/
structure BackendData where
  text : Option (List Char) := none
  advice : Option (List Char) := none
  response : Option (List Char) := none
  answer : Option (List Char) := none
  sources : Option (List Source) := none
  sources_used : Option (List Source) := none
  retrieved_docs : Option (List Source) := none
deriving DecidableEq

/-- JS `a || b` where `a` is an optional string: `undefined` and `""` are
falsy, every other string is truthy. -/
def jsOrStr (a : Option (List Char)) (b : List Char) : List Char :=
  match a with
  | none => b
  | some s => if s.isEmpty then b else s

/-- JS `a || b` where `a` is an optional array: `undefined` is falsy and
every array — including the empty array — is truthy. -/
def jsOrArr (a : Option (List Source)) (b : List Source) : List Source :=
  match a with
  | none => b
  | some l => l

/-- Line 192: `(data.advice || data.response || data.answer || "").toString()`. -/
def extractAnswer (d : BackendData) : List Char :=
  jsOrStr d.advice (jsOrStr d.response (jsOrStr d.answer []))

/-- Line 193: `(data.sources || data.sources_used || data.retrieved_docs || [])`. -/
def extractSources (d : BackendData) : List Source :=
  jsOrArr d.sources (jsOrArr d.sources_used (jsOrArr d.retrieved_docs []))

/-- The observable outcome of the `fetch` call in `sendMessage`: the promise
rejects, or a response arrives with a success flag (`response.ok`) and a
body that either parses as JSON (`some data`) or does not (`none`; a JSON
`null` body also lands here, as `data` is then falsy). -/
inductive FetchOutcome where
  | fetchThrow : FetchOutcome
  | fetchResponse (ok : Bool) (body : Option BackendData) : FetchOutcome
deriving DecidableEq

/-- `sendMessage(content, chatId)` (lines 160–220), as the chunk sequence of
the generator it resolves to, indexed by the fetch outcome. `chatId` is
accepted and ignored, as in the source. -/
def sendMessage (content : List Char) (_chatId : List Char) (outcome : FetchOutcome) :
    List Chunk :=
  match outcome with
  | .fetchThrow => mockStreamResponse content
  | .fetchResponse ok body =>
      if !ok then mockStreamResponse content
      else
        match body with
        | none => mockStreamResponse content
        | some data => streamChunks (extractAnswer data) (extractSources data)

/-- Concatenation of the contents of the non-terminal (`done = false`)
chunks, in emission order. -/
def nonTerminalText (cs : List Chunk) : List Char :=
  ((cs.filter fun c => !c.done).map Chunk.content).flatten

/-- Modelled from the spec (§4.1): the first non-empty field among an
ordered list of optional string fields, defaulting to the empty string. -/
def specFirstNonEmpty : List (Option (List Char)) → List Char
  | [] => []
  | none :: rest => specFirstNonEmpty rest
  | some s :: rest => if s.isEmpty then specFirstNonEmpty rest else s

/-- Modelled from the spec (§4.1): the first present field among an ordered
list of optional list fields, defaulting to the empty list. -/
def specFirstPresent : List (Option (List Source)) → List Source
  | [] => []
  | none :: rest => specFirstPresent rest
  | some l :: _ => l

theorem wordChunks_forall {ws : List (List Char)} :
    ∀ c ∈ wordChunks ws, c.done = false ∧ c.sources = none := by
  induction ws with
  | nil => simp [wordChunks]
  | cons w ws ih =>
      cases ws with
      | nil => simp [wordChunks]
      | cons w' ws' =>
          simp only [wordChunks, List.mem_cons]
          rintro c (rfl | hc)
          · exact ⟨rfl, rfl⟩
          · exact ih c hc

theorem wordChunks_flatten (ws : List (List Char)) :
    ((wordChunks ws).map Chunk.content).flatten = [' '].intercalate ws := by
  induction ws with
  | nil => simp [wordChunks, List.intercalate]
  | cons w ws ih =>
      cases ws with
      | nil => simp [wordChunks, List.intercalate]
      | cons w' ws' =>
          simp only [wordChunks, List.map_cons, List.flatten_cons, ih]
          simp [List.intercalate, List.intersperse_cons_cons]

theorem jsTrim_eq_nil_iff (s : List Char) :
    jsTrim s = [] ↔ ∀ c ∈ s, jsWhitespace c = true := by
  unfold jsTrim
  rw [List.reverse_eq_nil_iff, List.dropWhile_eq_nil_iff]
  constructor
  · intro h c hc
    have hc' : c ∈ s.takeWhile jsWhitespace ++ s.dropWhile jsWhitespace := by
      rw [List.takeWhile_append_dropWhile]; exact hc
    rcases List.mem_append.mp hc' with h' | h'
    · exact List.mem_takeWhile_imp h'
    · exact h c (List.mem_reverse.mpr h')
  · intro h c hc
    exact h c ((List.dropWhile_sublist jsWhitespace).mem (List.mem_reverse.mp hc))

theorem streamGuard_iff (s : List Char) :
    (s.isEmpty || (jsTrim s).length == 0) = true ↔ ∀ c ∈ s, jsWhitespace c = true := by
  rw [Bool.or_eq_true, List.isEmpty_iff, beq_iff_eq, List.length_eq_zero, jsTrim_eq_nil_iff]
  constructor
  · rintro (rfl | h)
    · simp
    · exact h
  · exact fun h => Or.inr h

theorem streamChunks_of_ws {answer : List Char} (sources : List Source)
    (h : ∀ c ∈ answer, jsWhitespace c = true) :
    streamChunks answer sources = [⟨[], true, some sources⟩] := by
  unfold streamChunks
  rw [if_pos ((streamGuard_iff answer).mpr h)]

theorem streamChunks_of_not_ws {answer : List Char} (sources : List Source)
    (h : ¬ ∀ c ∈ answer, jsWhitespace c = true) :
    streamChunks answer sources =
      wordChunks (answer.splitOn ' ') ++ [⟨[], true, some sources⟩] := by
  unfold streamChunks
  rw [if_neg fun hg => h ((streamGuard_iff answer).mp hg)]

theorem filter_not_done (ws : List (List Char)) (t : Chunk) (ht : t.done = true) :
    ((wordChunks ws ++ [t]).filter fun c => !c.done) = wordChunks ws := by
  rw [List.filter_append,
    List.filter_eq_self.mpr (fun c hc => by rw [(wordChunks_forall c hc).1]; rfl)]
  simp [ht]

theorem nonTerminalText_concat (ws : List (List Char)) (t : Chunk) (ht : t.done = true) :
    nonTerminalText (wordChunks ws ++ [t]) = [' '].intercalate ws := by
  unfold nonTerminalText
  rw [filter_not_done ws t ht, wordChunks_flatten]

theorem stream_shape (ws : List (List Char)) (srcs : List Source) :
    ((wordChunks ws ++ [(⟨[], true, some srcs⟩ : Chunk)]).countP fun c => c.done) = 1 ∧
    (wordChunks ws ++ [(⟨[], true, some srcs⟩ : Chunk)]).getLast? =
      some ⟨[], true, some srcs⟩ ∧
    ∀ c ∈ (wordChunks ws ++ [(⟨[], true, some srcs⟩ : Chunk)]).dropLast,
      c.done = false ∧ c.sources = none := by
  refine ⟨?_, List.getLast?_concat _, ?_⟩
  · rw [List.countP_append,
      List.countP_eq_zero.mpr (fun c hc h => by
        rw [(wordChunks_forall c hc).1] at h; exact Bool.false_ne_true h)]
    rfl
  · rw [List.dropLast_concat]
    exact wordChunks_forall

theorem mockSelect_cases (q : List Char) :
    mockSelect q = mockHeadache ∨ mockSelect q = mockDefault := by
  unfold mockSelect
  split
  · exact Or.inl rfl
  · exact Or.inr rfl

/-- C1: every failure branch of `sendMessage` — the fetch call throwing, a
non-success HTTP status, or a body that does not parse as JSON — returns the
Local Simulator's chunk sequence (`mockStreamResponse`) for the same query,
so no failure reaches the caller. -/
theorem sendMessage_failure_falls_back (content chatId : List Char)
    (body : Option BackendData) :
    sendMessage content chatId .fetchThrow = mockStreamResponse content ∧
    sendMessage content chatId (.fetchResponse false body) = mockStreamResponse content ∧
    sendMessage content chatId (.fetchResponse true none) = mockStreamResponse content :=
  ⟨rfl, rfl, rfl⟩

/-- C7: when the fetch throws, the generator returned by
`sendMessage(content, chatId)` produces chunk for chunk — content, done flag
and sources — the sequence of a direct `mockStreamResponse` call on the same
query. -/
theorem sendMessage_throw_refines_mock (content chatId : List Char) :
    (sendMessage content chatId .fetchThrow).map
        (fun c => (c.content, c.done, c.sources)) =
      (mockStreamResponse content).map (fun c => (c.content, c.done, c.sources)) :=
  rfl

/-- C2: concatenating the contents of the `done = false` chunks, in order,
reproduces the streamed answer exactly — for the word-by-word stream inside
`sendMessage` on any answer it actually streams, and for
`mockStreamResponse` on its selected canned content. -/
theorem stream_roundtrip (answer : List Char) (srcs : List Source) (q : List Char) :
    (¬ (∀ c ∈ answer, jsWhitespace c = true) →
      nonTerminalText (streamChunks answer srcs) = answer) ∧
    nonTerminalText (mockStreamResponse q) = (mockSelect q).content.toList := by
  constructor
  · intro h
    rw [streamChunks_of_not_ws srcs h, nonTerminalText_concat _ _ rfl,
      List.intercalate_splitOn]
  · unfold mockStreamResponse
    rw [nonTerminalText_concat _ _ rfl, List.intercalate_splitOn]

/-- Witness for C2 at the concrete answer `"hi there"`. -/
theorem stream_roundtrip_witness :
    (¬ (∀ c ∈ ("hi there".toList), jsWhitespace c = true)) ∧
    nonTerminalText (streamChunks "hi there".toList []) = "hi there".toList :=
  ⟨by decide, (stream_roundtrip "hi there".toList [] []).1 (by decide)⟩

/-- C5: on an empty or whitespace-only extracted answer, the `stream()`
generator inside `sendMessage` yields exactly one chunk: terminal, empty
content, carrying the extracted source list unchanged. -/
theorem empty_answer_single_chunk (answer : List Char) (srcs : List Source)
    (h : ∀ c ∈ answer, jsWhitespace c = true) :
    streamChunks answer srcs = [⟨[], true, some srcs⟩] :=
  streamChunks_of_ws srcs h

/-- Witness for C5 at the concrete whitespace-only answer `"  "`. -/
theorem empty_answer_single_chunk_witness :
    (∀ c ∈ ("  ".toList), jsWhitespace c = true) ∧
    streamChunks "  ".toList defaultSources = [⟨[], true, some defaultSources⟩] :=
  ⟨by decide, empty_answer_single_chunk "  ".toList defaultSources (by decide)⟩

/-- C3 as stated is false on the code: the accepted answer fields are
`advice`, `response`, `answer` — `text` is never consulted, so with both
`text` and `advice` populated the `advice` value wins, not `text`; and the
source list is the first *present* field, so a present-but-empty `sources`
array wins over a non-empty `sources_used`. -/
theorem extract_priority_counterexample :
    (extractAnswer { text := some "T".toList, advice := some "A".toList } = "A".toList ∧
      "A".toList ≠ "T".toList) ∧
    (extractSources { sources := some [], sources_used := some defaultSources } = [] ∧
      ([] : List Source) ≠ defaultSources) :=
  ⟨⟨by decide, by decide⟩, ⟨by decide, by decide⟩⟩

/-- C3 (amended): the answer is the first non-empty field among `advice`,
`response`, `answer` in that order (defaulting to the empty string; the
`text` field is never consulted), and the source list is the first present
field among `sources`, `sources_used`, `retrieved_docs` (defaulting to the
empty list; a present empty array is returned as is). -/
theorem extract_priority_amended (d : BackendData) :
    extractAnswer d = specFirstNonEmpty [d.advice, d.response, d.answer] ∧
    (∀ t, extractAnswer { d with text := t } = extractAnswer d) ∧
    extractSources d = specFirstPresent [d.sources, d.sources_used, d.retrieved_docs] := by
  obtain ⟨t, a, r, ans, s1, s2, s3⟩ := d
  refine ⟨?_, fun t' => rfl, ?_⟩
  · cases a <;> cases r <;> cases ans <;>
      simp [extractAnswer, jsOrStr, specFirstNonEmpty]
  · cases s1 <;> cases s2 <;> cases s3 <;>
      simp [extractSources, jsOrArr, specFirstPresent]

theorem headache_wordChunks_ne_nil :
    ∀ c ∈ wordChunks (mockHeadache.content.toList.splitOn ' '), c.content ≠ [] := by
  decide

theorem default_wordChunks_ne_nil :
    ∀ c ∈ wordChunks (mockDefault.content.toList.splitOn ' '), c.content ≠ [] := by
  decide

/-- C4 as stated is false on the code: for the remote answer `"a "` (which
is not whitespace-only, so it is streamed), the split produces a trailing
empty word, and the second chunk of the three-chunk sequence is a
non-terminal chunk with empty content. -/
theorem stream_invariant_counterexample :
    (streamChunks "a ".toList []).length = 3 ∧
    (streamChunks "a ".toList [])[1]? = some ⟨[], false, none⟩ := by
  exact ⟨by decide, by decide⟩

/-- C4 (amended): every sequence produced by `sendMessage`'s remote-answer
stream or by `mockStreamResponse` has exactly one `done = true` chunk; it is
the last chunk, has empty content, and is the only one carrying sources;
every prior chunk has `done = false` and no sources. In `mockStreamResponse`
every prior chunk moreover has non-empty text; in the remote-answer stream a
prior chunk's text can be empty (exactly when the answer has a trailing
empty split word). -/
theorem stream_invariant (answer : List Char) (srcs : List Source) (q : List Char) :
    (((streamChunks answer srcs).countP fun c => c.done) = 1 ∧
      (streamChunks answer srcs).getLast? = some ⟨[], true, some srcs⟩ ∧
      ∀ c ∈ (streamChunks answer srcs).dropLast, c.done = false ∧ c.sources = none) ∧
    (((mockStreamResponse q).countP fun c => c.done) = 1 ∧
      (mockStreamResponse q).getLast? = some ⟨[], true, some (mockSelect q).sources⟩ ∧
      ∀ c ∈ (mockStreamResponse q).dropLast,
        c.done = false ∧ c.sources = none ∧ c.content ≠ []) := by
  constructor
  · by_cases hg : ∀ c ∈ answer, jsWhitespace c = true
    · rw [streamChunks_of_ws srcs hg]
      exact ⟨rfl, rfl, by simp⟩
    · rw [streamChunks_of_not_ws srcs hg]
      exact stream_shape _ _
  · unfold mockStreamResponse
    refine ⟨(stream_shape _ _).1, (stream_shape _ _).2.1, ?_⟩
    rw [List.dropLast_concat]
    intro c hc
    refine ⟨(wordChunks_forall c hc).1, (wordChunks_forall c hc).2, ?_⟩
    rcases mockSelect_cases q with h | h <;> rw [h] at hc
    · exact headache_wordChunks_ne_nil c hc
    · exact default_wordChunks_ne_nil c hc

/-- Witness for C4 (amended) at the concrete answer `"hi"`. -/
theorem stream_invariant_witness :
    ((streamChunks "hi".toList []).countP fun c => c.done) = 1 :=
  (stream_invariant "hi".toList [] []).1.1

/-- C6: a query whose lowercasing contains `"headache"` selects the
headache-specific canned content and sources; a query containing neither
recognized keyword (`"headache"`, `"head pain"`) selects the default canned
content; and the two canned entries are distinct. -/
theorem mockSelect_keyword (q : List Char) :
    ("headache".toList <:+: q.map Char.toLower → mockSelect q = mockHeadache) ∧
    (¬ "headache".toList <:+: q.map Char.toLower →
      ¬ "head pain".toList <:+: q.map Char.toLower → mockSelect q = mockDefault) ∧
    mockHeadache ≠ mockDefault := by
  refine ⟨fun h => ?_, fun h1 h2 => ?_, by decide⟩
  · unfold mockSelect
    rw [if_pos (Or.inl h)]
  · unfold mockSelect
    rw [if_neg (by rintro (h | h); exacts [h1 h, h2 h])]

/-- Witness for C6 at the concrete query `"bad HEADACHE today"`. -/
theorem mockSelect_keyword_witness :
    ("headache".toList <:+: ("bad HEADACHE today".toList.map Char.toLower)) ∧
    mockSelect "bad HEADACHE today".toList = mockHeadache :=
  ⟨by decide, (mockSelect_keyword "bad HEADACHE today".toList).1 (by decide)⟩

/-- The parsed body `{"answer": "Take rest."}` with every other accepted
field absent. -/
def takeRestData : BackendData := { answer := some "Take rest.".toList }

/-- C8: on the body `{"answer": "Take rest."}` the selector extracts
`"Take rest."` and an empty source list; missing fields are defaulted
silently, the remote answer is streamed, and the result is not the Local
Simulator's sequence. -/
theorem missing_fields_defaults (q chatId : List Char) :
    extractAnswer takeRestData = "Take rest.".toList ∧
    extractSources takeRestData = [] ∧
    sendMessage q chatId (.fetchResponse true (some takeRestData)) =
      streamChunks "Take rest.".toList [] ∧
    sendMessage q chatId (.fetchResponse true (some takeRestData)) ≠
      mockStreamResponse q := by
  refine ⟨by decide, by decide, rfl, ?_⟩
  intro hEq
  have e : sendMessage q chatId (.fetchResponse true (some takeRestData)) =
      streamChunks "Take rest.".toList [] := rfl
  rw [e] at hEq
  have h1 := congrArg List.getLast? hEq
  have h2 : (streamChunks "Take rest.".toList []).getLast? =
      some ⟨[], true, some []⟩ := by decide
  unfold mockStreamResponse at h1
  rw [List.getLast?_concat, h2] at h1
  have h3 : ([] : List Source) = (mockSelect q).sources :=
    Option.some.inj (congrArg Chunk.sources (Option.some.inj h1))
  rcases mockSelect_cases q with hm | hm <;> rw [hm] at h3
  · exact absurd h3 (by decide)
  · exact absurd h3 (by decide)

/-- Witness for C8 at the concrete query `"x"`. -/
theorem missing_fields_defaults_witness :
    sendMessage "x".toList "chat-1".toList (.fetchResponse true (some takeRestData)) =
      streamChunks "Take rest.".toList [] :=
  (missing_fields_defaults "x".toList "chat-1".toList).2.2.1

/-- C9: the pacing policy of `getStreamDelay`, for any random draw in
`[0, 1)`: sentence-ending punctuation gives a delay in `[80, 120)`, clause
punctuation gives `[50, 80)`, a markdown heading token gives exactly `60`,
and everything else gives `[15, 40)`. -/
theorem getStreamDelay_policy (word : List Char) (r : ℚ) (h0 : 0 ≤ r) (h1 : r < 1) :
    ((word.getLast? = some '.' ∨ word.getLast? = some '!' ∨ word.getLast? = some '?') →
      80 ≤ getStreamDelay word r ∧ getStreamDelay word r < 120) ∧
    (((word.getLast? = some ',' ∨ word.getLast? = some ':') ∧
        ¬(word.getLast? = some '.' ∨ word.getLast? = some '!' ∨
          word.getLast? = some '?')) →
      50 ≤ getStreamDelay word r ∧ getStreamDelay word r < 80) ∧
    ((word.head? = some '#' ∧
        ¬(word.getLast? = some '.' ∨ word.getLast? = some '!' ∨
          word.getLast? = some '?' ∨ word.getLast? = some ',' ∨
          word.getLast? = some ':')) →
      getStreamDelay word r = 60) ∧
    ((¬(word.getLast? = some '.' ∨ word.getLast? = some '!' ∨
          word.getLast? = some '?' ∨ word.getLast? = some ',' ∨
          word.getLast? = some ':') ∧ ¬ word.head? = some '#') →
      15 ≤ getStreamDelay word r ∧ getStreamDelay word r < 40) := by
  have k40 : 0 ≤ r * 40 := mul_nonneg h0 (by norm_num)
  have k40' : r * 40 < 40 := by nlinarith
  have k30 : 0 ≤ r * 30 := mul_nonneg h0 (by norm_num)
  have k30' : r * 30 < 30 := by nlinarith
  have k25 : 0 ≤ r * 25 := mul_nonneg h0 (by norm_num)
  have k25' : r * 25 < 25 := by nlinarith
  unfold getStreamDelay
  split_ifs with hA hB hC <;>
    simp only [Bool.or_eq_true, beq_iff_eq] at * <;>
    refine ⟨?_, ?_, ?_, ?_⟩ <;> intro h <;>
    first
      | exact ⟨by linarith, by linarith⟩
      | rfl
      | tauto

/-- Witness for C9 at the concrete token `"word"` and draw `1/2`. -/
theorem getStreamDelay_policy_witness :
    (0 ≤ (1/2 : ℚ) ∧ (1/2 : ℚ) < 1) ∧
    (15 ≤ getStreamDelay "word".toList (1/2) ∧ getStreamDelay "word".toList (1/2) < 40) :=
  ⟨⟨by norm_num, by norm_num⟩,
    (getStreamDelay_policy "word".toList (1/2) (by norm_num) (by norm_num)).2.2.2
      (by refine ⟨?_, ?_⟩ <;> decide)⟩

theorem eventChunks_sleep (ms : ℚ) (evs : List StreamEvent) :
    eventChunks (.sleep ms :: evs) = eventChunks evs :=
  rfl

theorem eventChunks_append (l1 l2 : List StreamEvent) :
    eventChunks (l1 ++ l2) = eventChunks l1 ++ eventChunks l2 :=
  List.filterMap_append _ _ _

theorem eventChunks_wordEvents (rand : ℕ → ℚ) (i : ℕ) (ws : List (List Char)) :
    eventChunks (wordEvents rand i ws) = wordChunks ws := by
  induction ws generalizing i with
  | nil => rfl
  | cons w ws ih =>
      cases ws with
      | nil => rfl
      | cons w' ws' =>
          show eventChunks (.sleep _ :: .chunk _ :: wordEvents rand (i + 1) (w' :: ws')) =
            (⟨w ++ [' '], false, none⟩ : Chunk) :: wordChunks (w' :: ws')
          rw [eventChunks_sleep]
          show (⟨w ++ [' '], false, none⟩ : Chunk) ::
              eventChunks (wordEvents rand (i + 1) (w' :: ws')) = _
          rw [ih (i + 1)]

theorem eventChunks_mock (q : List Char) (rand : ℕ → ℚ) :
    eventChunks (mockStreamResponseEvents q rand) = mockStreamResponse q := by
  unfold mockStreamResponseEvents mockStreamResponse
  rw [eventChunks_append, eventChunks_sleep, eventChunks_wordEvents]
  rfl

theorem eventChunks_stream (answer : List Char) (srcs : List Source) (rand : ℕ → ℚ) :
    eventChunks (streamEvents answer srcs rand) = streamChunks answer srcs := by
  unfold streamEvents streamChunks
  by_cases hg : (answer.isEmpty || (jsTrim answer).length == 0) = true
  · rw [if_pos hg, if_pos hg]
    rfl
  · rw [if_neg hg, if_neg hg, eventChunks_append, eventChunks_wordEvents]
    rfl

/-- C10: the chunk sequence — contents, done flags, sources, count and
order — of `mockStreamResponse` and of the remote-answer stream is the same
for any two random streams: randomness only enters the sleep durations. -/
theorem chunks_independent_of_random (q answer : List Char) (srcs : List Source)
    (r1 r2 : ℕ → ℚ) :
    eventChunks (mockStreamResponseEvents q r1) =
      eventChunks (mockStreamResponseEvents q r2) ∧
    eventChunks (streamEvents answer srcs r1) =
      eventChunks (streamEvents answer srcs r2) ∧
    eventChunks (mockStreamResponseEvents q r1) = mockStreamResponse q ∧
    eventChunks (streamEvents answer srcs r1) = streamChunks answer srcs := by
  refine ⟨?_, ?_, eventChunks_mock q r1, eventChunks_stream answer srcs r1⟩
  · rw [eventChunks_mock q r1, eventChunks_mock q r2]
  · rw [eventChunks_stream answer srcs r1, eventChunks_stream answer srcs r2]

end Medic
